import Mathlib

/-!
Verification of the T-Invest portfolio bot's valuation and history
reconstruction engine: a shallow embedding of the relevant parts of
`src/utils/api_client.py` and `src/handlers/stock_handler.py`.

Modelling conventions:
- Python floats are modelled as exact rationals (`ℚ`).
- ISO-8601 UTC timestamp strings (all of one fixed format in this code)
  are modelled as epoch seconds (`ℤ`): lexicographic comparison of
  equal-format ISO strings coincides with chronological comparison, and
  `datetime.fromisoformat` on such strings cannot fail.  A possibly
  missing/empty date field is modelled as `Option ℤ`.
- Python dicts are insertion-ordered association lists; assignment
  overwrites in place, deletion removes the entry.
-/

namespace TInvest

/-- Python dict lookup `d.get(k)` on an insertion-ordered association list. -/
def assocGet {κ α : Type} [BEq κ] (m : List (κ × α)) (k : κ) : Option α :=
  (m.find? (fun e => e.1 == k)).map (fun e => e.2)

/-- Python dict assignment `d[k] = v`: overwrite in place, else append. -/
def assocSet {κ α : Type} [BEq κ] (m : List (κ × α)) (k : κ) (v : α) : List (κ × α) :=
  if (m.find? (fun e => e.1 == k)).isSome then
    m.map (fun e => if e.1 == k then (k, v) else e)
  else
    m ++ [(k, v)]

/-- Python dict deletion `del d[k]`. -/
def assocDel {κ α : Type} [BEq κ] (m : List (κ × α)) (k : κ) : List (κ × α) :=
  m.filter (fun e => !(e.1 == k))

/-- Insertion into a list sorted by the boolean relation `le`. -/
def insertBy {α : Type} (le : α → α → Bool) (x : α) : List α → List α
  | [] => [x]
  | y :: ys => if le x y then x :: y :: ys else y :: insertBy le x ys

/-- Insertion sort by the boolean relation `le`; models Python `sorted`
(duplicate keys never arise in the scenarios proved below, so stability
is not load-bearing). -/
def sortBy {α : Type} (le : α → α → Bool) : List α → List α
  | [] => []
  | x :: xs => insertBy le x (sortBy le xs)

/-! ## Quantity/Money Normalizer (`format_quotation`, src/utils/api_client.py:738-781) -/

/-- An IEEE-754 double as produced by Python: finite — its value
idealized as an exact rational, per this file's conventions — or one of
the non-finite values. -/
inductive PyFloat : Type where
  | finite (q : ℚ) : PyFloat
  | inf : PyFloat
  | negInf : PyFloat
  | nan : PyFloat
deriving DecidableEq

/-- The magnitude at which CPython's int-to-float conversion overflows:
round-to-nearest sends every value of magnitude ≥ 2^1024 - 2^970 to
2^1024, so `float(n)` raises `OverflowError` exactly there (the largest
finite double is 2^1024 - 2^971). -/
def floatOverflowBound : ℤ := 2 ^ 1024 - 2 ^ 970

/-- Python `float(n)` on an int: the exact value within double range
(rounding idealized away), an uncaught `OverflowError` (`Option.none`)
beyond it. -/
def pyFloatOfInt (n : ℤ) : Option PyFloat :=
  if |n| < floatOverflowBound then some (PyFloat.finite (n : ℚ)) else Option.none

/-- A Python value of any of the shapes `format_quotation` can receive.
A string is represented by the outcomes of Python's `float(s)` and
`int(s)` parses (`Option.none` = that parse raises; the empty string
parses as neither; a numeric literal past double range, such as
`"1e400"`, parses to `PyFloat.inf` without raising).  A
Quotation-shaped dict is represented by its `units`/`nano` fields
(`Option.none` = key absent); other keys are never read by the source.
`other` stands for any further object. -/
inductive PyVal : Type where
  | none : PyVal
  | int (n : ℤ) : PyVal
  | float (x : PyFloat) : PyVal
  | str (parseFloat : Option PyFloat) (parseInt : Option ℤ) : PyVal
  | dict (units nano : Option PyVal) : PyVal
  | other : PyVal

/-- The outcome of Python `int(x)`: a value, an exception the source's
`except (ValueError, TypeError)` clause catches, or an `OverflowError`
that clause does not catch. -/
inductive IntCoercion : Type where
  | ok (n : ℤ) : IntCoercion
  | caught : IntCoercion
  | overflow : IntCoercion

/-- Python `int(x)`: ints and integer-literal strings pass through,
finite floats truncate toward zero; `int(±inf)` raises `OverflowError`,
`int(nan)` raises `ValueError`, non-numeric shapes raise `TypeError`. -/
def pyToInt : PyVal → IntCoercion
  | .int n => .ok n
  | .float (.finite q) => .ok (q.num.tdiv q.den)
  | .float .inf => .overflow
  | .float .negInf => .overflow
  | .float .nan => .caught
  | .str _ (some z) => .ok z
  | .str _ Option.none => .caught
  | _ => .caught

/-- Python truthiness for the shapes above (used by `if not quotation` and
`if units`).  Strings, dicts, non-finite floats and other objects are
treated as truthy: in every case where CPython differs (empty string,
empty dict, falsy exotic object) both branches of the source produce the
same result `0`, as the theorems below only depend on the outcome. -/
def pyTruthy : PyVal → Bool
  | .none => false
  | .int n => n != 0
  | .float (.finite q) => q != 0
  | _ => true

/-- `units = quotation.get("units", 0)` followed by
`units = int(units) if units else 0` wrapped in
`except (ValueError, TypeError): units = 0`
(src/utils/api_client.py:766-777); identically for `nano`.
`Option.none` models the `OverflowError` of `int(±inf)`, which that
clause does not catch and which escapes `format_quotation`. -/
def coerceField (v : Option PyVal) : Option ℤ :=
  match v with
  | Option.none => some 0
  | some w =>
    if pyTruthy w then
      match pyToInt w with
      | .ok z => some z
      | .caught => some 0
      | .overflow => Option.none
    else some 0

/-- `value = units + (nano / 1_000_000_000)` (src/utils/api_client.py:779),
outside any try: the int/int true division raises an uncaught
`OverflowError` when its quotient exceeds double range, the implicit
int-to-float conversion of `units` does likewise, and the final double
addition overflows to ±inf past the largest double. -/
def dictValue (units nano : ℤ) : Option PyFloat :=
  if floatOverflowBound * 1000000000 ≤ |nano| then Option.none
  else if floatOverflowBound ≤ |units| then Option.none
  else
    let v : ℚ := (units : ℚ) + (nano : ℚ) / 1000000000
    if (floatOverflowBound : ℚ) ≤ |v| then
      some (if 0 < v then PyFloat.inf else PyFloat.negInf)
    else some (PyFloat.finite v)

/-- `format_quotation` (src/utils/api_client.py:738-781): falsy input →
`0.0`; int → `float(n)`, an *uncaught* `OverflowError` (`Option.none`)
past double range (line 754); float → itself, non-finite values
included; string → `float(s)`, parse failure caught to `0.0` but an
overflowing literal returning `inf`; dict → `units + nano / 1_000_000_000`
via `coerceField` and `dictValue`, whose `OverflowError`s escape; any
other object → `0.0`.  The `if n = 0` guard is the `if not quotation`
falsy branch, which returns the same `0.0` the conversion would. -/
def format_quotation : PyVal → Option PyFloat
  | .none => some (PyFloat.finite 0)
  | .int n => if n = 0 then some (PyFloat.finite 0) else pyFloatOfInt n
  | .float x => some x
  | .str pf _ => some (pf.getD (PyFloat.finite 0))
  | .dict u n =>
    match coerceField u, coerceField n with
    | some units, some nano => dictValue units nano
    | _, _ => Option.none
  | .other => some (PyFloat.finite 0)

/-! ## Per-position valuation (src/handlers/stock_handler.py)

Positions reach these computations as dicts whose `quantity`,
`averagePositionPrice` and `currentPrice` fields are passed through
`format_quotation`; we model them by the resulting rationals. -/

/-- `calculate_position_growth` (src/handlers/stock_handler.py:66-86):
the keyboard-button path.  Note the relative growth divides by the
*signed* `buy_value`. -/
def calculate_position_growth (quantity averagePrice currentPrice : ℚ) : ℚ × ℚ :=
  let currentValue := quantity * currentPrice
  let buyValue := quantity * averagePrice
  let absoluteGrowth := currentValue - buyValue
  let relativeGrowth := if buyValue ≠ 0 then absoluteGrowth / buyValue * 100 else 0
  (absoluteGrowth, relativeGrowth)

/-- The position-detail ("portfolio_select") path
(src/handlers/stock_handler.py:392-402): returns
`(total_buy_value, total_current, profit_loss, profit_loss_percent)`;
the percent divides by `abs(total_buy_value)`. -/
def positionDetailMetrics (quantity averagePrice currentPrice : ℚ) : ℚ × ℚ × ℚ × ℚ :=
  let totalBuyValue := quantity * averagePrice
  let totalCurrent := quantity * currentPrice
  let profitLoss := totalCurrent - totalBuyValue
  let profitLossBase := |totalBuyValue|
  let profitLossPercent := if profitLossBase > 0 then profitLoss / profitLossBase * 100 else 0
  (totalBuyValue, totalCurrent, profitLoss, profitLossPercent)

/-! ## Aggregate portfolio valuation (src/handlers/stock_handler.py:239-269) -/

/-- A position as consumed by the `view_stocks` aggregation, fields already
normalized by `format_quotation`. -/
structure HPosition : Type where
  figi : String
  quantity : ℚ
  averagePositionPrice : ℚ
  currentPrice : ℚ

/-- `current_price = price_map.get(figi, 0)`; if that is `0`, fall back to
the position's own `currentPrice` (src/handlers/stock_handler.py:252-254).
`priceMap` models the dict with its default: absent figi ↦ 0. -/
def effectivePrice (priceMap : String → ℚ) (p : HPosition) : ℚ :=
  if priceMap p.figi = 0 then p.currentPrice else priceMap p.figi

/-- `stocks_value`: running sum of `quantity * current_price`
(src/handlers/stock_handler.py:256). -/
def stocksValue (priceMap : String → ℚ) (positions : List HPosition) : ℚ :=
  positions.foldl (fun acc p => acc + p.quantity * effectivePrice priceMap p) 0

/-- `total_buy_value`: running sum of `quantity * average_price`
(src/handlers/stock_handler.py:257). -/
def totalBuyValue (positions : List HPosition) : ℚ :=
  positions.foldl (fun acc p => acc + p.quantity * p.averagePositionPrice) 0

/-- `portfolio_value = balance_amount + stocks_value`
(src/handlers/stock_handler.py:261). -/
def portfolioValue (balanceAmount : ℚ) (priceMap : String → ℚ) (positions : List HPosition) : ℚ :=
  balanceAmount + stocksValue priceMap positions

/-- `total_profit_absolute = stocks_value - total_buy_value`
(src/handlers/stock_handler.py:264). -/
def totalProfitAbsolute (priceMap : String → ℚ) (positions : List HPosition) : ℚ :=
  stocksValue priceMap positions - totalBuyValue positions

/-- `total_profit_percent` with its zero-denominator guard
(src/handlers/stock_handler.py:266-269). -/
def totalProfitPercent (balanceAmount : ℚ) (priceMap : String → ℚ)
    (positions : List HPosition) : ℚ :=
  let x := totalProfitAbsolute priceMap positions
  let d := portfolioValue balanceAmount priceMap positions - x
  if d ≠ 0 then x / d * 100 else 0

/-! ## Candle interval selection (src/utils/api_client.py:626-635) -/

/-- The `diff_days`-based interval choice inside
`_calculate_history_from_operations`; `(end - start).days` is the floor of
the time difference in whole days. -/
def chooseCandleInterval (fromSec toSec : ℤ) : String :=
  let diffDays := (toSec - fromSec).fdiv 86400
  if diffDays ≤ 1 then "CANDLE_INTERVAL_HOUR"
  else if diffDays ≤ 7 then "CANDLE_INTERVAL_HOUR"
  else "CANDLE_INTERVAL_DAY"

/-! ## History Reconstructor (src/utils/api_client.py:521-703)

Holdings (`current_stocks`) are a dict figi ↦ quantity.  Operation dates
and candle times are epoch seconds, `Option.none` modelling a missing or
empty string field (`if not op_date`, `if candle.get("time")`). -/

/-- Holdings dict: figi ↦ quantity. -/
abbrev Holdings := List (String × ℚ)

/-- An executed operation as consumed by the replay, `quantity` and
`payment` already passed through `format_quotation` (`payment` is the
signed cash effect as delivered by the API). -/
structure Operation : Type where
  date : Option ℤ
  operationType : String
  figi : String
  quantity : ℚ
  payment : ℚ

/-- `a ≤ b` on sort keys where a missing date reads as the empty string,
which sorts before every ISO timestamp (`x.get("date", "")`). -/
def dateKeyLe (a b : Option ℤ) : Bool :=
  match a, b with
  | Option.none, _ => true
  | some _, Option.none => false
  | some x, some y => decide (x ≤ y)

/-- `sorted(operations, key=lambda x: x.get("date", ""), reverse=True)`
(src/utils/api_client.py:590). -/
def sortOpsDesc (ops : List Operation) : List Operation :=
  sortBy (fun a b => dateKeyLe b.date a.date) ops

/-- The state-mutation part of one iteration of the backward-replay loop
(src/utils/api_client.py:607-618), for an operation that passed the
`if not op_date or not figi: continue` guard: a BUY/BUY_CARD is reversed
by removing its quantity from holdings (deleting the entry at ≤ 0) and
subtracting the payment from cash; a SELL by adding its quantity back and
adding the payment; other operation types change nothing. -/
def replayStep (st : Holdings × ℚ) (op : Operation) : Holdings × ℚ :=
  let q := |op.quantity|
  if op.operationType = "OPERATION_TYPE_BUY" ∨ op.operationType = "OPERATION_TYPE_BUY_CARD" then
    let stocks :=
      match assocGet st.1 op.figi with
      | some cur => if cur - q ≤ 0 then assocDel st.1 op.figi else assocSet st.1 op.figi (cur - q)
      | Option.none => st.1
    (stocks, st.2 - op.payment)
  else if op.operationType = "OPERATION_TYPE_SELL" then
    (assocSet st.1 op.figi ((assocGet st.1 op.figi).getD 0 + q), st.2 + op.payment)
  else st

/-- The running state of the replay loop: current holdings and cash plus
the per-operation-date snapshot dicts `stock_history`/`balance_history`. -/
structure ReplayState : Type where
  stocks : Holdings
  balance : ℚ
  stockHistory : List (ℤ × Holdings)
  balanceHistory : List (ℤ × ℚ)

/-- One full iteration of the loop over `sorted_operations`
(src/utils/api_client.py:597-622), including the skip guard and the
snapshot writes. -/
def replayOp (s : ReplayState) (op : Operation) : ReplayState :=
  match op.date with
  | Option.none => s
  | some d =>
    if op.figi = "" then s
    else
      let st := replayStep (s.stocks, s.balance) op
      { stocks := st.1, balance := st.2,
        stockHistory := assocSet s.stockHistory d st.1,
        balanceHistory := assocSet s.balanceHistory d st.2 }

/-- The whole backward replay (src/utils/api_client.py:588-622): sort
descending, start from the current holdings/cash, `balance_history`
seeded with `{to_date: current_balance}`. -/
def runReplay (currentStocks : Holdings) (currentBalance : ℚ) (toDate : ℤ)
    (operations : List Operation) : ReplayState :=
  (sortOpsDesc operations).foldl replayOp
    { stocks := currentStocks, balance := currentBalance,
      stockHistory := [], balanceHistory := [(toDate, currentBalance)] }

/-- The "state of the portfolio at timestamp `t`" scan
(src/utils/api_client.py:655-664): start from the post-replay
(i.e. earliest) holdings and cash, then take each snapshot whose
operation date is ≤ `t`, in ascending date order. -/
def stateAtTimestamp (final : ReplayState) (t : ℤ) : Holdings × ℚ :=
  let keysAsc := sortBy (fun a b => decide (a ≤ b)) (final.stockHistory.map (fun e => e.1))
  keysAsc.foldl
    (fun acc k =>
      if k ≤ t then
        ((assocGet final.stockHistory k).getD acc.1,
         (assocGet final.balanceHistory k).getD acc.2)
      else acc)
    (final.stocks, final.balance)

/-- A candle as consumed here: its `time` (`Option.none` = missing/empty)
and `close` already passed through `format_quotation`. -/
structure Candle : Type where
  time : Option ℤ
  close : ℚ

/-- `_calculate_history_from_operations` (src/utils/api_client.py:563-688).
Inputs model the already-fetched data: `currentPositions` the
(figi, quantity) pairs of `current_positions`, `portfolioBalance` the
normalized `totalAmountCurrencies`, `getCandlesF figi interval` the
result of `get_candles` (`Option.none` = request failed).  The result is
`Option.none` when the body raises and the blanket `except` returns
`None`; in particular `list(all_figis)[0]` raises `IndexError` whenever
`all_figis` — collected only from the per-operation snapshots in
`stock_history` — is empty.  CPython's unordered set iteration is
modelled as first-appearance order (only the emptiness of `all_figis` is
relied upon by the theorems below).  Output points carry their timestamp
in epoch seconds. -/
def calcHistoryFromOperations (currentPositions : List (String × ℚ))
    (portfolioBalance : ℚ) (operations : List Operation)
    (fromDate toDate : ℤ) (getCandlesF : String → String → Option (List Candle)) :
    Option (List (ℤ × ℚ)) :=
  let currentStocks : Holdings :=
    currentPositions.foldl (fun m p => assocSet m p.1 p.2) []
  let final := runReplay currentStocks portfolioBalance toDate operations
  let interval := chooseCandleInterval fromDate toDate
  let allFigis : List String :=
    final.stockHistory.foldl
      (fun acc kv => kv.2.foldl
        (fun a e => if a.contains e.1 then a else a ++ [e.1]) acc) []
  let candlesByFigi : List (String × List (ℤ × ℚ)) :=
    allFigis.foldl (fun acc figi =>
      match getCandlesF figi interval with
      | some candles =>
        if candles.isEmpty then acc
        else
          assocSet acc figi (candles.foldl
            (fun m c => match c.time with
              | some tm => assocSet m tm c.close
              | Option.none => m) [])
      | Option.none => acc) []
  match allFigis with
  | [] => Option.none
  | f0 :: _ =>
    let timeKeys := ((assocGet candlesByFigi f0).getD []).map (fun e => e.1)
    let valueByTime : List (ℤ × ℚ) :=
      timeKeys.foldl (fun m t =>
        let st := stateAtTimestamp final t
        let sv := st.1.foldl
          (fun acc e =>
            acc + e.2 * ((assocGet ((assocGet candlesByFigi e.1).getD []) t).getD 0)) 0
        assocSet m t (st.2 + sv)) []
    some (sortBy (fun a b => decide (a.1 ≤ b.1)) valueByTime)

/-- `_calculate_history_simple` (src/utils/api_client.py:691-703): the
fallback body is a stub that returns the empty series, its comment
notwithstanding. -/
def calcHistorySimple (_positions : List (String × ℚ)) (_balance : ℚ)
    (_fromDate _toDate : ℤ) : Option (List (ℤ × ℚ)) :=
  some []

/-- `get_portfolio_history` (src/utils/api_client.py:521-560) as a function
of the already-fetched data: empty positions short-circuit to `[]`;
`operations? = Option.none` (operations endpoint unavailable) activates
the fallback; otherwise the operation-replay method runs. -/
def getPortfolioHistory (positions : List (String × ℚ)) (balance : ℚ)
    (operationsOpt : Option (List Operation)) (fromDate toDate : ℤ)
    (getCandlesF : String → String → Option (List Candle)) :
    Option (List (ℤ × ℚ)) :=
  if positions.isEmpty then some []
  else
    match operationsOpt with
    | Option.none => calcHistorySimple positions balance fromDate toDate
    | some ops => calcHistoryFromOperations positions balance ops fromDate toDate getCandlesF

/-! ## Market Data Gateway: `get_portfolio_positions` with its TTL cache
(src/utils/api_client.py:40-46, 215-284) -/

/-- A raw position dict as delivered inside the portfolio payload; only
the fields this code path reads.  The raw payload carries no
`is_virtual` key — that key is invented by `get_portfolio_positions`. -/
structure RawPosition : Type where
  figi : String
  instrumentType : String
deriving DecidableEq

/-- The raw portfolio payload as consumed here. -/
structure Portfolio : Type where
  positions : List RawPosition
  virtualPositions : List RawPosition
deriving DecidableEq

/-- A position as returned by `get_portfolio_positions`: the raw dict
plus its `is_virtual` entry (`false` models the absent key, read back via
`pos.get("is_virtual", False)`). -/
structure TaggedPosition : Type where
  pos : RawPosition
  is_virtual : Bool
deriving DecidableEq

/-- The share filter and virtual-flag tagging
(src/utils/api_client.py:257-270): regular positions of type "share" pass
through untagged, virtual ones are copied with `is_virtual = True`, and
the lists are concatenated regular-first. -/
def portfolioShares (portfolio : Portfolio) : List TaggedPosition :=
  let shares := (portfolio.positions.filter
    (fun p => p.instrumentType == "share")).map (fun p => TaggedPosition.mk p false)
  let virtualShares := (portfolio.virtualPositions.filter
    (fun p => p.instrumentType == "share")).map (fun p => TaggedPosition.mk p true)
  shares ++ virtualShares

/-- The triple `(all_shares, portfolio, account_id)` returned by
`get_portfolio_positions`. -/
abbrev PortfolioResult := List TaggedPosition × Option Portfolio × Option String

/-- The gateway's process-wide mutable state: the TTL cache plus a count
of network portfolio fetches (calls of `get_portfolio`), which the cache
claims are about. -/
structure GatewayState : Type where
  cache : List (String × (PortfolioResult × ℚ))
  fetchCount : ℕ

/-- `_cache_ttl = 30` seconds (src/utils/api_client.py:46). -/
def cacheTtl : ℚ := 30

/-- `get_portfolio_positions` (src/utils/api_client.py:215-284).
`accounts` models `get_accounts()` as the list of account ids; `net`
models `get_portfolio` (`Option.none` = fetch failed); `now` is
`time.time()` at the moment of the call.  Returns the result triple and
the updated gateway state. -/
def get_portfolio_positions (accounts : List String) (net : String → Option Portfolio)
    (accountId : String) (useCache : Bool) (now : ℚ) (s : GatewayState) :
    PortfolioResult × GatewayState :=
  match (if accountId = "" then accounts.head? else some accountId) with
  | Option.none => (([], Option.none, Option.none), s)
  | some acct =>
    let cacheKey := "portfolio_" ++ acct
    let hit : Option PortfolioResult :=
      if useCache then
        match assocGet s.cache cacheKey with
        | some (data, timestamp) =>
          if now - timestamp < cacheTtl then some data else Option.none
        | Option.none => Option.none
      else Option.none
    match hit with
    | some data => (data, s)
    | Option.none =>
      let s1 : GatewayState := { s with fetchCount := s.fetchCount + 1 }
      match net acct with
      | Option.none => (([], Option.none, some acct), s1)
      | some portfolio =>
        let result : PortfolioResult := (portfolioShares portfolio, some portfolio, some acct)
        let s2 : GatewayState :=
          if useCache then { s1 with cache := assocSet s1.cache cacheKey (result, now) } else s1
        (result, s2)

/-! ## Concrete scenarios from the spec -/

/-- The spec's replay scenario: one executed BUY of 5 shares of `F2`
dated yesterday (2025-10-11T00:00:00Z = 1760140800); `p` is the
operation's `payment` field. -/
def c1BuyOp (p : ℚ) : Operation :=
  { date := some 1760140800, operationType := "OPERATION_TYPE_BUY",
    figi := "F2", quantity := 5, payment := p }

/-- Replay of the scenario from current holdings `F2 = 5` and current
cash `B`, the window ending today (2025-10-12T00:00:00Z = 1760227200). -/
def c1Final (B p : ℚ) : ReplayState :=
  runReplay [("F2", 5)] B 1760227200 [c1BuyOp p]

/-- The reconstructed scenario state at timestamp `t`. -/
def c1StateAt (B p : ℚ) (t : ℤ) : Holdings × ℚ :=
  stateAtTimestamp (c1Final B p) t

/-- The spec's aggregate-valuation scenario position list:
`[{figi: "F1", quantity: 10, avgPrice: 100}]`. -/
def c5Positions : List HPosition :=
  [{ figi := "F1", quantity := 10, averagePositionPrice := 100, currentPrice := 0 }]

/-- The scenario price map: current price 120 for `F1`. -/
def c5PriceMap : String → ℚ := fun figi => if figi == "F1" then 120 else 0

/-! ## Association-list helper lemmas -/

theorem assocGet_set_self {κ α : Type} [BEq κ] [LawfulBEq κ]
    (m : List (κ × α)) (k : κ) (v : α) : assocGet (assocSet m k v) k = some v := by
  induction m with
  | nil => simp [assocSet, assocGet]
  | cons a l ih =>
    by_cases ha : a.1 == k
    · simp [assocSet, assocGet, List.find?, ha]
    · by_cases hl : (l.find? (fun e => e.1 == k)).isSome
      · simp [assocSet, List.find?, ha, hl, assocGet] at ih ⊢
        exact ih
      · simp [assocSet, List.find?, ha, hl, assocGet] at ih ⊢
        exact ih

theorem assocGet_del_self {κ α : Type} [BEq κ]
    (m : List (κ × α)) (k : κ) : assocGet (assocDel m k) k = Option.none := by
  induction m with
  | nil => rfl
  | cons a l ih =>
    by_cases ha : a.1 == k
    · simpa [assocDel, List.filter, ha] using ih
    · simp [assocDel, List.filter, ha, assocGet, List.find?] at ih ⊢
      try exact ih

/-! ## Bounds on the float-overflow threshold -/

theorem two_pow_1024_le_ten_pow_400 : (2 : ℤ) ^ 1024 ≤ 10 ^ 400 := by
  calc (2 : ℤ) ^ 1024 ≤ 2 ^ 1200 := pow_le_pow_right₀ (by norm_num) (by norm_num)
    _ = (2 ^ 3) ^ 400 := by rw [← pow_mul]
    _ ≤ 10 ^ 400 := pow_le_pow_left₀ (by norm_num) (by norm_num) 400

theorem floatOverflowBound_le_ten_pow_400 : floatOverflowBound ≤ (10 : ℤ) ^ 400 := by
  rw [floatOverflowBound]
  exact le_trans (sub_le_self _ (by positivity)) two_pow_1024_le_ten_pow_400

theorem floatOverflowBound_le_abs_ten_pow_400 : floatOverflowBound ≤ |(10 : ℤ) ^ 400| := by
  rw [abs_of_pos (by positivity)]
  exact floatOverflowBound_le_ten_pow_400

theorem two_pow_1023_le_floatOverflowBound : (2 : ℤ) ^ 1023 ≤ floatOverflowBound := by
  rw [floatOverflowBound]
  have h1 : (2 : ℤ) ^ 1024 = 2 ^ 1023 * 2 := by rw [← pow_succ]
  have h2 : (2 : ℤ) ^ 970 ≤ 2 ^ 1023 := pow_le_pow_right₀ (by norm_num) (by norm_num)
  linarith

theorem floatOverflowBound_pos : 0 < floatOverflowBound :=
  lt_of_lt_of_le (by positivity) two_pow_1023_le_floatOverflowBound

theorem small_lt_floatOverflowBound {n : ℤ} (h : |n| < 2 ^ 62) :
    |n| < floatOverflowBound :=
  lt_of_lt_of_le h (le_trans (pow_le_pow_right₀ (by norm_num) (by norm_num))
    two_pow_1023_le_floatOverflowBound)

theorem small_lt_floatOverflowBound_mul {n : ℤ} (h : |n| < 2 ^ 62) :
    |n| < floatOverflowBound * 1000000000 :=
  lt_of_lt_of_le (small_lt_floatOverflowBound h)
    (le_mul_of_one_le_right (le_of_lt floatOverflowBound_pos) (by norm_num))

theorem ratSmall_lt_floatOverflowBound {q : ℚ} (h : |q| < 2 ^ 62) :
    |q| < (floatOverflowBound : ℚ) := by
  refine lt_of_lt_of_le h ?_
  have h1 : (2 : ℚ) ^ 62 ≤ (2 : ℚ) ^ 1023 := pow_le_pow_right₀ (by norm_num) (by norm_num)
  have h2 : (((2 : ℤ) ^ 1023 : ℤ) : ℚ) ≤ (floatOverflowBound : ℚ) := by
    exact_mod_cast two_pow_1023_le_floatOverflowBound
  push_cast at h2
  linarith

theorem dictValue_units_overflow (units : ℤ) (h : floatOverflowBound ≤ |units|) :
    dictValue units 0 = Option.none := by
  have hz : ¬ (floatOverflowBound * 1000000000 ≤ |(0 : ℤ)|) := by
    rw [abs_zero]
    exact not_le.mpr (mul_pos floatOverflowBound_pos (by norm_num))
  unfold dictValue
  rw [if_neg hz, if_pos h]

/-! ## Claims -/

/-- C6, counterexample: the normalizer is *not* total on all inputs —
the numeric input `10^400` makes the uncaught `float()` conversion at
line 754 raise `OverflowError` (result `Option.none`), a dict with
`units = 10^400` makes line 779 raise the same way, and the numeric
string `"1e400"` (which Python parses to `inf` without raising) returns
a non-finite float. -/
theorem c6_counterexample :
    format_quotation (PyVal.int (10 ^ 400)) = Option.none ∧
    format_quotation (PyVal.dict (some (PyVal.int (10 ^ 400))) Option.none) = Option.none ∧
    format_quotation (PyVal.str (some PyFloat.inf) Option.none) = some PyFloat.inf ∧
    some PyFloat.inf ≠ some (PyFloat.finite 0) := by
  have h0 : ((10 : ℤ) ^ 400) ≠ 0 := by positivity
  refine ⟨?_, ?_, rfl, by simp⟩
  · simp [format_quotation, h0, pyFloatOfInt,
      not_lt.mpr floatOverflowBound_le_abs_ten_pow_400,
      floatOverflowBound_le_ten_pow_400]
  · have hcoerce : coerceField (some (PyVal.int (10 ^ 400))) = some (10 ^ 400) := by
      simp [coerceField, pyTruthy, pyToInt, h0]
    simp only [format_quotation, hcoerce]
    exact dictValue_units_overflow _ floatOverflowBound_le_abs_ten_pow_400

/-- C6, amended: the normalizer never raises and returns a finite float
on every input within double range — null/empty and malformed inputs
yield `0.0`, in-range numbers and numeric strings their value, and
dict-shaped inputs `units + nano / 1_000_000_000` with each absent or
non-numeric field coerced to `0` — but an integer of magnitude
≥ 2^1024 - 2^970 makes the uncaught `float()` conversion raise
`OverflowError`, a numeric string past double range yields the
non-finite `inf` that `float()` parses it to, and a dict whose coerced
`units` (or `nano / 1e9` quotient) is out of double range raises
uncaught at line 779. -/
theorem c6_normalize_amended :
    format_quotation PyVal.none = some (PyFloat.finite 0) ∧
    format_quotation PyVal.other = some (PyFloat.finite 0) ∧
    (∀ n : ℤ, |n| < floatOverflowBound →
        format_quotation (PyVal.int n) = some (PyFloat.finite (n : ℚ))) ∧
    (∀ n : ℤ, floatOverflowBound ≤ |n| →
        format_quotation (PyVal.int n) = Option.none) ∧
    (∀ x : PyFloat, format_quotation (PyVal.float x) = some x) ∧
    (∀ pint : Option ℤ,
        format_quotation (PyVal.str Option.none pint) = some (PyFloat.finite 0)) ∧
    (∀ (x : PyFloat) (pint : Option ℤ),
        format_quotation (PyVal.str (some x) pint) = some x) ∧
    (∀ (u n : Option PyVal) (units nano : ℤ),
        coerceField u = some units → coerceField n = some nano →
        |units| < floatOverflowBound →
        |nano| < floatOverflowBound * 1000000000 →
        |(units : ℚ) + (nano : ℚ) / 1000000000| < (floatOverflowBound : ℚ) →
        format_quotation (PyVal.dict u n) =
          some (PyFloat.finite ((units : ℚ) + (nano : ℚ) / 1000000000))) ∧
    (∀ (u : Option PyVal) (units : ℤ),
        coerceField u = some units → floatOverflowBound ≤ |units| →
        format_quotation (PyVal.dict u Option.none) = Option.none) ∧
    coerceField Option.none = some 0 ∧
    coerceField (some PyVal.none) = some 0 ∧
    coerceField (some PyVal.other) = some 0 ∧
    coerceField (some (PyVal.str Option.none Option.none)) = some 0 ∧
    coerceField (some (PyVal.float PyFloat.nan)) = some 0 ∧
    coerceField (some (PyVal.float PyFloat.inf)) = Option.none ∧
    (∀ m : ℤ, coerceField (some (PyVal.int m)) = some m) := by
  refine ⟨rfl, rfl, ?_, ?_, fun x => rfl, fun pint => rfl, fun x pint => rfl,
    ?_, ?_, rfl, rfl, rfl, rfl, rfl, rfl, ?_⟩
  · intro n hn
    by_cases h : n = 0
    · simp [format_quotation, h]
    · simp [format_quotation, h, pyFloatOfInt, hn]
  · intro n hn
    have h0 : n ≠ 0 := by
      intro h
      rw [h, abs_zero] at hn
      exact absurd hn (not_le.mpr floatOverflowBound_pos)
    simp [format_quotation, h0, pyFloatOfInt, not_lt.mpr hn]
  · intro u n units nano hu hn hunits hnano hsum
    simp only [format_quotation, hu, hn, dictValue]
    rw [if_neg (not_le.mpr hnano), if_neg (not_le.mpr hunits), if_neg (not_le.mpr hsum)]
  · intro u units hu hunits
    simp only [format_quotation, hu]
    exact dictValue_units_overflow units hunits
  · intro m
    by_cases h : m = 0 <;> simp [coerceField, pyTruthy, pyToInt, h]

/-- C6 witness: the in-range dict `{units: 3, nano: 500000000}` yields
`3.5`, the in-range integer `42` yields `42.0`, and the out-of-range
dict `{units: 10^400}` raises (both dict branches of the amended
theorem exercised). -/
theorem c6_normalize_amended_witness :
    format_quotation (PyVal.dict (some (PyVal.int 3)) (some (PyVal.int 500000000))) =
      some (PyFloat.finite ((3 : ℚ) + (500000000 : ℚ) / 1000000000)) ∧
    format_quotation (PyVal.int 42) = some (PyFloat.finite (42 : ℚ)) ∧
    format_quotation (PyVal.dict (some (PyVal.int (10 ^ 400))) Option.none) =
      Option.none := by
  refine ⟨c6_normalize_amended.2.2.2.2.2.2.2.1 (some (PyVal.int 3))
      (some (PyVal.int 500000000)) 3 500000000 (by simp [coerceField, pyTruthy, pyToInt])
      (by simp [coerceField, pyTruthy, pyToInt])
      (small_lt_floatOverflowBound (by norm_num))
      (small_lt_floatOverflowBound_mul (by norm_num))
      (ratSmall_lt_floatOverflowBound
        (by push_cast
            rw [abs_of_pos (by norm_num)]
            norm_num)),
    c6_normalize_amended.2.2.1 42 (small_lt_floatOverflowBound (by norm_num)),
    c6_normalize_amended.2.2.2.2.2.2.2.2.1 (some (PyVal.int (10 ^ 400))) (10 ^ 400)
      (by simp [coerceField, pyTruthy, pyToInt, (by positivity : ((10 : ℤ) ^ 400) ≠ 0)])
      floatOverflowBound_le_abs_ten_pow_400⟩

/-- C7, counterexample: for the 3-day span `[0, 259200]` (longer than one
day) the code still chooses hourly candles, not daily ones as the claim
demands. -/
theorem c7_counterexample :
    chooseCandleInterval 0 259200 = "CANDLE_INTERVAL_HOUR" ∧
    chooseCandleInterval 0 259200 ≠ "CANDLE_INTERVAL_DAY" := by
  constructor
  · rfl
  · simp [chooseCandleInterval]

/-- C7, amended: the candle interval is determined solely by the span of
`[from, to]` — it is invariant under time translation — and the actual
rule is: hourly candles when the span is at most 7 whole days, daily
candles when it is longer than 7 days. -/
theorem c7_interval_amended :
    (∀ fromSec toSec : ℤ,
        chooseCandleInterval fromSec toSec =
          if (toSec - fromSec).fdiv 86400 ≤ 7 then "CANDLE_INTERVAL_HOUR"
          else "CANDLE_INTERVAL_DAY") ∧
    (∀ fromSec toSec d : ℤ,
        chooseCandleInterval (fromSec + d) (toSec + d) =
          chooseCandleInterval fromSec toSec) := by
  constructor
  · intro a b
    unfold chooseCandleInterval
    by_cases h1 : (b - a).fdiv 86400 ≤ 1
    · have h7 : (b - a).fdiv 86400 ≤ 7 := by omega
      simp [h1, h7]
    · by_cases h7 : (b - a).fdiv 86400 ≤ 7 <;> simp [h1, h7]
  · intro a b d
    have h : b + d - (a + d) = b - a := by ring
    unfold chooseCandleInterval
    rw [h]

/-- C3 (code bug): when the executed-operations list is empty, every
figi set `all_figis` is collected only from the per-operation snapshots
in `stock_history`, which are then empty, so `list(all_figis)[0]` raises
`IndexError` and the blanket handler returns `None` — not the claimed
flat constant-holdings revaluation series. -/
theorem c3_empty_operations_returns_none :
    ∀ (positions : List (String × ℚ)) (balance : ℚ) (fromDate toDate : ℤ)
      (gc : String → String → Option (List Candle)),
      calcHistoryFromOperations positions balance [] fromDate toDate gc = Option.none := by
  intro positions balance fromDate toDate gc
  rfl

/-- C4 (code bug): when the operations endpoint is unavailable the code
does dispatch to the fallback `_calculate_history_simple`, but that
fallback is a stub returning the empty series — there is no
constant-holdings revaluation and no degraded/approximate flag anywhere
in the result. -/
theorem c4_fallback_returns_empty :
    (∀ (positions : List (String × ℚ)) (balance : ℚ) (fromDate toDate : ℤ),
        calcHistorySimple positions balance fromDate toDate = some []) ∧
    (∀ (gc : String → String → Option (List Candle)) (fromDate toDate : ℤ),
        getPortfolioHistory [("F2", 5)] 1000 Option.none fromDate toDate gc = some []) := by
  constructor
  · intro positions balance fromDate toDate
    rfl
  · intro gc fromDate toDate
    rfl

/-- C2, counterexample: the keyboard-button path
`calculate_position_growth` also reports a relative P/L, but for the
short position quantity = -10, averagePositionPrice = 100,
currentPrice = 90 it reports -10%, not the +10% the claim requires of
every code path. -/
theorem c2_counterexample :
    (calculate_position_growth (-10) 100 90).2 = -10 ∧
    ¬ ((calculate_position_growth (-10) 100 90).2 = 10) := by
  constructor
  · norm_num [calculate_position_growth]
  · norm_num [calculate_position_growth]

/-- C2, amended: the position-detail path reports
`pnlPercent = pnlAbsolute / |costBasis| × 100` (and `0` when
`costBasis = 0`), and on the short scenario reports
`costBasis = -1000`, `marketValue = -900`, `pnlAbsolute = +100`,
`pnlPercent = +10%`; the keyboard-button path
`calculate_position_growth` instead divides by the signed cost basis —
it agrees with the detail path whenever `costBasis > 0` but reports
`-10%` on this short scenario. -/
theorem c2_pnl_percent_amended :
    (∀ quantity averagePrice currentPrice : ℚ,
        (positionDetailMetrics quantity averagePrice currentPrice).2.2.2 =
          if quantity * averagePrice ≠ 0 then
            (quantity * currentPrice - quantity * averagePrice) /
              |quantity * averagePrice| * 100
          else 0) ∧
    positionDetailMetrics (-10) 100 90 = (-1000, -900, 100, 10) ∧
    (calculate_position_growth (-10) 100 90).2 = -10 ∧
    (∀ quantity averagePrice currentPrice : ℚ,
        0 < quantity * averagePrice →
        (calculate_position_growth quantity averagePrice currentPrice).2 =
          (positionDetailMetrics quantity averagePrice currentPrice).2.2.2) := by
  refine ⟨?_, ?_, ?_, ?_⟩
  · intro q a c
    by_cases h : q * a = 0
    · simp [positionDetailMetrics, h]
    · simp [positionDetailMetrics, h, abs_pos.mpr h]
  · norm_num [positionDetailMetrics]
  · norm_num [calculate_position_growth]
  · intro q a c h
    have hne : q * a ≠ 0 := ne_of_gt h
    simp [calculate_position_growth, positionDetailMetrics, hne,
      abs_pos.mpr hne, abs_of_pos h, h]

/-- C2 witness: the two paths agree on a concrete long position
(quantity 2, average price 3, current price 4). -/
theorem c2_pnl_percent_amended_witness :
    (calculate_position_growth 2 3 4).2 = (positionDetailMetrics 2 3 4).2.2.2 :=
  c2_pnl_percent_amended.2.2.2 2 3 4 (by norm_num)

/-- C5: the aggregate valuation satisfies
`portfolioValue = balanceAmount + stocksValue`,
`totalProfitAbsolute = stocksValue - totalBuyValue`, the relative profit
is `totalProfitAbsolute / (portfolioValue - totalProfitAbsolute) × 100`
guarded to `0` on a zero denominator, and the concrete scenario
(one position figi `F1`, quantity 10, average price 100, current price
120, balance 500) yields `stocksValue = 1200`, `totalBuyValue = 1000`,
`portfolioValue = 1700`, `totalProfitAbsolute = 200`,
`totalProfitPercent = 200/(1700-200)*100 = 40/3`, displayed at two
decimals as 13.33%. -/
theorem c5_aggregate_valuation :
    (∀ (b : ℚ) (pm : String → ℚ) (ps : List HPosition),
        portfolioValue b pm ps = b + stocksValue pm ps ∧
        totalProfitAbsolute pm ps = stocksValue pm ps - totalBuyValue ps) ∧
    (∀ (b : ℚ) (pm : String → ℚ) (ps : List HPosition),
        portfolioValue b pm ps - totalProfitAbsolute pm ps ≠ 0 →
        totalProfitPercent b pm ps =
          totalProfitAbsolute pm ps /
            (portfolioValue b pm ps - totalProfitAbsolute pm ps) * 100) ∧
    (∀ (b : ℚ) (pm : String → ℚ) (ps : List HPosition),
        portfolioValue b pm ps - totalProfitAbsolute pm ps = 0 →
        totalProfitPercent b pm ps = 0) ∧
    stocksValue c5PriceMap c5Positions = 1200 ∧
    totalBuyValue c5Positions = 1000 ∧
    portfolioValue 500 c5PriceMap c5Positions = 1700 ∧
    totalProfitAbsolute c5PriceMap c5Positions = 200 ∧
    totalProfitPercent 500 c5PriceMap c5Positions = 200 / (1700 - 200) * 100 ∧
    totalProfitPercent 500 c5PriceMap c5Positions = 40 / 3 ∧
    ⌊totalProfitPercent 500 c5PriceMap c5Positions * 100⌋ = 1333 := by
  have hsv : stocksValue c5PriceMap c5Positions = 1200 := by
    norm_num [stocksValue, c5PriceMap, c5Positions, effectivePrice]
  have hbv : totalBuyValue c5Positions = 1000 := by
    norm_num [totalBuyValue, c5Positions]
  have hpv : portfolioValue 500 c5PriceMap c5Positions = 1700 := by
    rw [portfolioValue, hsv]; norm_num
  have hpa : totalProfitAbsolute c5PriceMap c5Positions = 200 := by
    rw [totalProfitAbsolute, hsv, hbv]; norm_num
  have hpp : totalProfitPercent 500 c5PriceMap c5Positions = 40 / 3 := by
    rw [totalProfitPercent]
    rw [show totalProfitAbsolute c5PriceMap c5Positions = 200 from hpa,
        show portfolioValue 500 c5PriceMap c5Positions = 1700 from hpv]
    norm_num
  refine ⟨fun b pm ps => ⟨rfl, rfl⟩, ?_, ?_, hsv, hbv, hpv, hpa, ?_, hpp, ?_⟩
  · intro b pm ps h
    simp only [totalProfitPercent]
    rw [if_pos h]
  · intro b pm ps h
    simp only [totalProfitPercent]
    rw [if_neg (by simpa using h)]
  · rw [hpp]; norm_num
  · rw [hpp]
    rw [show (40 : ℚ) / 3 * 100 = 4000 / 3 by norm_num]
    rw [Int.floor_eq_iff]
    norm_num

/-- C5 witness: both guarded branches of the relative-profit formula at
concrete inputs — the zero-denominator case (empty portfolio, zero
balance) yields `0`, and the scenario denominator case yields the
formula's value. -/
theorem c5_aggregate_valuation_witness :
    totalProfitPercent 0 c5PriceMap [] = 0 ∧
    totalProfitPercent 500 c5PriceMap c5Positions =
      totalProfitAbsolute c5PriceMap c5Positions /
        (portfolioValue 500 c5PriceMap c5Positions -
          totalProfitAbsolute c5PriceMap c5Positions) * 100 :=
  ⟨c5_aggregate_valuation.2.2.1 0 c5PriceMap []
      (by norm_num [portfolioValue, totalProfitAbsolute, stocksValue, totalBuyValue]),
   c5_aggregate_valuation.2.1 500 c5PriceMap c5Positions
      (by norm_num [portfolioValue, totalProfitAbsolute, stocksValue, totalBuyValue,
        c5PriceMap, c5Positions, effectivePrice])⟩

/-- C1, counterexample: for the spec's scenario read literally — one
executed BUY of 5 shares of `F2` with `payment = 500` and current
holdings `F2 = 5`, current cash 1000 — the reconstructed state at a
timestamp before the operation has `F2` dropped (correct) but cash
`1000 - 500 = 500`, not "greater by 500 than the post-purchase cash"
(`1000 + 500`): the code *subtracts* a BUY's payment when replaying
backwards, because `payment` is the signed cash effect. -/
theorem c1_counterexample :
    assocGet (c1StateAt 1000 500 1760054400).1 "F2" = Option.none ∧
    (c1StateAt 1000 500 1760054400).2 = 500 ∧
    ¬ ((c1StateAt 1000 500 1760054400).2 = 1000 + 500) := by
  have h : c1StateAt 1000 500 1760054400 = ([], 500) := by
    norm_num [c1StateAt, c1Final, c1BuyOp, runReplay, sortOpsDesc, sortBy, insertBy,
      replayOp, replayStep, stateAtTimestamp, assocGet, assocSet, assocDel,
      dateKeyLe, List.find?, List.filter, abs]
    simp
  rw [h]
  refine ⟨rfl, rfl, by norm_num⟩

/-- C1, amended: in the backward replay each BUY/BUY_CARD subtracts its
quantity from the instrument's holdings (the entry surviving with the
reduced quantity while it stays positive, deleted once it reaches ≤ 0)
and *subtracts* the operation's signed payment from cash, and each SELL
adds its quantity back and *adds* the payment — `payment` being the
signed cash effect, negative for a purchase.  For the scenario — one
executed BUY of 5 shares of `F2` dated yesterday with `payment = -500`
(the cash effect of paying 500) and current holdings `F2 = 5`, cash `B`
— every reconstructed state at a timestamp before the operation has no
`F2` holding and cash `B + 500`, i.e. greater by 500 than the
post-purchase cash. -/
theorem c1_backward_replay_amended :
    (∀ (st : Holdings × ℚ) (op : Operation),
        op.operationType = "OPERATION_TYPE_BUY" ∨
          op.operationType = "OPERATION_TYPE_BUY_CARD" →
        (replayStep st op).2 = st.2 - op.payment) ∧
    (∀ (st : Holdings × ℚ) (op : Operation) (cur : ℚ),
        (op.operationType = "OPERATION_TYPE_BUY" ∨
          op.operationType = "OPERATION_TYPE_BUY_CARD") →
        assocGet st.1 op.figi = some cur → cur - |op.quantity| ≤ 0 →
        assocGet (replayStep st op).1 op.figi = Option.none) ∧
    (∀ (st : Holdings × ℚ) (op : Operation) (cur : ℚ),
        (op.operationType = "OPERATION_TYPE_BUY" ∨
          op.operationType = "OPERATION_TYPE_BUY_CARD") →
        assocGet st.1 op.figi = some cur → 0 < cur - |op.quantity| →
        assocGet (replayStep st op).1 op.figi = some (cur - |op.quantity|)) ∧
    (∀ (st : Holdings × ℚ) (op : Operation),
        op.operationType = "OPERATION_TYPE_SELL" →
        (replayStep st op).2 = st.2 + op.payment ∧
        assocGet (replayStep st op).1 op.figi =
          some ((assocGet st.1 op.figi).getD 0 + |op.quantity|)) ∧
    (∀ (B p : ℚ) (t : ℤ), t < 1760140800 →
        assocGet (c1StateAt B p t).1 "F2" = Option.none ∧
        (c1StateAt B p t).2 = B - p) ∧
    (∀ (B : ℚ) (t : ℤ), t < 1760140800 →
        (c1StateAt B (-500) t).2 = B + 500) := by
  have hstate : ∀ (B p : ℚ) (t : ℤ), t < 1760140800 →
      c1StateAt B p t = ([], B - p) := by
    intro B p t ht
    norm_num [c1StateAt, c1Final, c1BuyOp, runReplay, sortOpsDesc, sortBy, insertBy,
      replayOp, replayStep, stateAtTimestamp, assocGet, assocSet, assocDel,
      dateKeyLe, List.find?, List.filter, abs, ht.not_le]
    simp
  refine ⟨?_, ?_, ?_, ?_, ?_, ?_⟩
  · intro st op hop
    unfold replayStep
    rw [if_pos hop]
  · intro st op cur hop hget hle
    unfold replayStep
    rw [if_pos hop]
    simp only [hget, hle, if_pos]
    exact assocGet_del_self st.1 op.figi
  · intro st op cur hop hget hpos
    unfold replayStep
    rw [if_pos hop]
    simp only [hget]
    rw [if_neg (not_le.mpr hpos)]
    exact assocGet_set_self st.1 op.figi _
  · intro st op hsell
    have hnb : ¬ (op.operationType = "OPERATION_TYPE_BUY" ∨
        op.operationType = "OPERATION_TYPE_BUY_CARD") := by
      simp [hsell]
    unfold replayStep
    rw [if_neg hnb, if_pos hsell]
    exact ⟨rfl, assocGet_set_self st.1 op.figi _⟩
  · intro B p t ht
    rw [hstate B p t ht]
    exact ⟨rfl, rfl⟩
  · intro B t ht
    rw [hstate B (-500) t ht]
    norm_num

/-- C1 witness: the amended scenario at cash `B = 1000`,
`payment = -500`, timestamp 2025-10-10T00:00:00Z (before the
operation): no `F2` holding and cash `1000 + 500`; and the
surviving-entry BUY case at a concrete smaller operation — reversing a
BUY of 2 out of 5 held `F2` shares leaves the entry at 3. -/
theorem c1_backward_replay_amended_witness :
    assocGet (c1StateAt 1000 (-500) 1760054400).1 "F2" = Option.none ∧
    (c1StateAt 1000 (-500) 1760054400).2 = 1000 + 500 ∧
    assocGet (replayStep ([("F2", 5)], 1000)
        { date := some 1760140800, operationType := "OPERATION_TYPE_BUY",
          figi := "F2", quantity := 2, payment := -200 }).1 "F2" = some 3 := by
  refine ⟨(c1_backward_replay_amended.2.2.2.2.1 1000 (-500) 1760054400 (by norm_num)).1,
    c1_backward_replay_amended.2.2.2.2.2 1000 1760054400 (by norm_num), ?_⟩
  have h := c1_backward_replay_amended.2.2.1 ([("F2", 5)], (1000 : ℚ))
    { date := some 1760140800, operationType := "OPERATION_TYPE_BUY",
      figi := "F2", quantity := 2, payment := -200 } 5
    (Or.inl rfl) (by simp [assocGet, List.find?]) (by norm_num)
  norm_num at h
  exact h

/-- C9: in the list returned by the share partition of
`get_portfolio_positions`, every share position sourced from
`virtualPositions` appears tagged `is_virtual = true`, every share
position sourced from `positions` appears untagged (flag absent ≡
`false`), and conversely a returned position's flag identifies which raw
list it came from. -/
theorem c9_virtual_flag_propagation :
    (∀ (portfolio : Portfolio) (rp : RawPosition),
        rp ∈ portfolio.virtualPositions → rp.instrumentType = "share" →
        TaggedPosition.mk rp true ∈ portfolioShares portfolio) ∧
    (∀ (portfolio : Portfolio) (rp : RawPosition),
        rp ∈ portfolio.positions → rp.instrumentType = "share" →
        TaggedPosition.mk rp false ∈ portfolioShares portfolio) ∧
    (∀ (portfolio : Portfolio) (tp : TaggedPosition),
        tp ∈ portfolioShares portfolio →
        (tp.is_virtual = true → tp.pos ∈ portfolio.virtualPositions) ∧
        (tp.is_virtual = false → tp.pos ∈ portfolio.positions)) := by
  refine ⟨?_, ?_, ?_⟩
  · intro P rp hmem hshare
    simp only [portfolioShares, List.mem_append, List.mem_map, List.mem_filter]
    exact Or.inr ⟨rp, ⟨hmem, by simp [hshare]⟩, rfl⟩
  · intro P rp hmem hshare
    simp only [portfolioShares, List.mem_append, List.mem_map, List.mem_filter]
    exact Or.inl ⟨rp, ⟨hmem, by simp [hshare]⟩, rfl⟩
  · intro P tp hmem
    simp only [portfolioShares, List.mem_append, List.mem_map, List.mem_filter] at hmem
    rcases hmem with ⟨x, ⟨hx, _⟩, rfl⟩ | ⟨x, ⟨hx, _⟩, rfl⟩
    · exact ⟨by simp, fun _ => hx⟩
    · exact ⟨fun _ => hx, by simp⟩

/-- C9 witness: a concrete portfolio with one regular share `F1` and one
virtual share `F2`. -/
theorem c9_virtual_flag_propagation_witness :
    TaggedPosition.mk ⟨"F2", "share"⟩ true ∈
      portfolioShares ⟨[⟨"F1", "share"⟩], [⟨"F2", "share"⟩]⟩ ∧
    TaggedPosition.mk ⟨"F1", "share"⟩ false ∈
      portfolioShares ⟨[⟨"F1", "share"⟩], [⟨"F2", "share"⟩]⟩ :=
  ⟨c9_virtual_flag_propagation.1 ⟨[⟨"F1", "share"⟩], [⟨"F2", "share"⟩]⟩
      ⟨"F2", "share"⟩ (by simp) rfl,
   c9_virtual_flag_propagation.2.1 ⟨[⟨"F1", "share"⟩], [⟨"F2", "share"⟩]⟩
      ⟨"F1", "share"⟩ (by simp) rfl⟩

/-- C8: with caching enabled, a successful fetch for an account with no
prior cache entry stores the result, so a second call within the 30 s
TTL is served from the cache — the two calls issue exactly one network
fetch and return the same result — while a second call made once the TTL
has elapsed performs a second network fetch. -/
theorem c8_cache_ttl :
    ∀ (accounts : List String) (net : String → Option Portfolio) (acct : String)
      (P : Portfolio) (s : GatewayState) (t1 t2 : ℚ),
      acct ≠ "" → net acct = some P →
      assocGet s.cache ("portfolio_" ++ acct) = Option.none →
      (t2 - t1 < cacheTtl →
        (get_portfolio_positions accounts net acct true t2
            (get_portfolio_positions accounts net acct true t1 s).2).2.fetchCount =
          s.fetchCount + 1 ∧
        (get_portfolio_positions accounts net acct true t2
            (get_portfolio_positions accounts net acct true t1 s).2).1 =
          (get_portfolio_positions accounts net acct true t1 s).1) ∧
      (cacheTtl ≤ t2 - t1 →
        (get_portfolio_positions accounts net acct true t2
            (get_portfolio_positions accounts net acct true t1 s).2).2.fetchCount =
          s.fetchCount + 2) := by
  intro accounts net acct P s t1 t2 hacct hnet hlookup
  have h1 : get_portfolio_positions accounts net acct true t1 s =
      ((portfolioShares P, some P, some acct),
       { cache := assocSet s.cache ("portfolio_" ++ acct)
           ((portfolioShares P, some P, some acct), t1),
         fetchCount := s.fetchCount + 1 }) := by
    simp [get_portfolio_positions, hacct, hlookup, hnet]
  constructor
  · intro hlt
    rw [h1]
    simp [get_portfolio_positions, hacct, assocGet_set_self, hlt]
  · intro hge
    rw [h1]
    simp [get_portfolio_positions, hacct, assocGet_set_self, hnet,
      not_lt.mpr hge]

/-- C8 witness: account "A", a network that returns an empty portfolio,
an empty starting cache, calls at times 0 and 10 (within the TTL): one
fetch in total and identical results. -/
theorem c8_cache_ttl_witness :
    (get_portfolio_positions [] (fun _ => some ⟨[], []⟩) "A" true 10
        (get_portfolio_positions [] (fun _ => some ⟨[], []⟩) "A" true 0
          ⟨[], 0⟩).2).2.fetchCount = (0 : ℕ) + 1 ∧
    (get_portfolio_positions [] (fun _ => some ⟨[], []⟩) "A" true 10
        (get_portfolio_positions [] (fun _ => some ⟨[], []⟩) "A" true 0
          ⟨[], 0⟩).2).1 =
      (get_portfolio_positions [] (fun _ => some ⟨[], []⟩) "A" true 0 ⟨[], 0⟩).1 :=
  (c8_cache_ttl [] (fun _ => some ⟨[], []⟩) "A" ⟨[], []⟩ ⟨[], 0⟩ 0 10
      (by simp) rfl rfl).1 (by norm_num [cacheTtl])

/-- C10: when the portfolio fetch fails, `get_portfolio_positions`
returns `([], None, accountId)` before the cache-store line runs, so the
cache is left unchanged, no entry is stored for the account, and a
subsequent call (at any time) performs a fresh network fetch instead of
being served a cached failure. -/
theorem c10_failure_not_cached :
    ∀ (accounts : List String) (net : String → Option Portfolio) (acct : String)
      (s : GatewayState) (t1 t2 : ℚ),
      acct ≠ "" → net acct = Option.none →
      assocGet s.cache ("portfolio_" ++ acct) = Option.none →
      (get_portfolio_positions accounts net acct true t1 s).1 =
        ([], Option.none, some acct) ∧
      (get_portfolio_positions accounts net acct true t1 s).2.cache = s.cache ∧
      (get_portfolio_positions accounts net acct true t1 s).2.fetchCount =
        s.fetchCount + 1 ∧
      (get_portfolio_positions accounts net acct true t2
          (get_portfolio_positions accounts net acct true t1 s).2).2.fetchCount =
        s.fetchCount + 2 := by
  intro accounts net acct s t1 t2 hacct hnet hlookup
  have h1 : get_portfolio_positions accounts net acct true t1 s =
      (([], Option.none, some acct),
       { cache := s.cache, fetchCount := s.fetchCount + 1 }) := by
    simp [get_portfolio_positions, hacct, hlookup, hnet]
  refine ⟨by rw [h1], by rw [h1], by rw [h1], ?_⟩
  rw [h1]
  simp [get_portfolio_positions, hacct, hlookup, hnet]

/-- C10 witness: account "A", a network whose portfolio fetch fails, an
empty starting cache, calls at times 0 and 5: empty result, unchanged
cache, and two fetches across the two calls. -/
theorem c10_failure_not_cached_witness :
    (get_portfolio_positions [] (fun _ => Option.none) "A" true 0
        ⟨[], 0⟩).1 = ([], Option.none, some "A") ∧
    (get_portfolio_positions [] (fun _ => Option.none) "A" true 0
        ⟨[], 0⟩).2.cache = [] ∧
    (get_portfolio_positions [] (fun _ => Option.none) "A" true 0
        ⟨[], 0⟩).2.fetchCount = (0 : ℕ) + 1 ∧
    (get_portfolio_positions [] (fun _ => Option.none) "A" true 5
        (get_portfolio_positions [] (fun _ => Option.none) "A" true 0
          ⟨[], 0⟩).2).2.fetchCount = (0 : ℕ) + 2 :=
  c10_failure_not_cached [] (fun _ => Option.none) "A" ⟨[], 0⟩ 0 5
    (by simp) rfl rfl

end TInvest
